import Mathlib

/-!
Verification development for the `meter` usage-reporting CLI.

Shallow embedding of the Rust sources:
  * `src/io/unified_dtos.rs`   — data transfer objects,
  * `src/io/cache.rs`          — TTL file cache (`try_retrieve_cache`, `try_write_cache`),
  * `src/config/pricing_table.rs` — the static pricing table,
  * `src/calculation/unified.rs`  — pricing resolution and aggregation,
  * `src/calculation/usage_report.rs` — the report model and its renderer,
  * `src/main.rs`              — the driver (cache gating, signature, output).

Modelling conventions:
  * Rust `u64` token counters become `Nat` (the counts are non-negative and the
    claims never touch the `u64` overflow boundary); hash arithmetic that does
    overflow is done in `Nat` with explicit `% 2^64` masking.
  * Rust `f64` dollar amounts become `ℚ`.  Every concrete value the claims
    exercise (integer token counts divided by `1_000_000`, multipliers `1.0`,
    `5.0`, …) is exactly representable in binary floating point and the
    corresponding operations are exact, so on those inputs the `ℚ` semantics
    and the `f64` semantics coincide.
  * `jiff::Timestamp` values become `Int` seconds since the epoch;
    `ttl.minutes()` becomes `ttl * 60` seconds.
  * Filesystem state for one cache path is `Option CacheFile` (absent, or a
    file with content and modification time).  Fallible I/O is modelled by
    injecting failure flags where the claims need them (`MainIo`).
  * Rust `HashMap` values are modelled as association lists kept in first
    insertion order (a deterministic representative of the unordered map).
-/

namespace Meter

/-! ## Data model (src/io/unified_dtos.rs, src/cli.rs `Provider`) -/

/-- Provider tag (src/main.rs `enum Provider`; only `Anthropic` exists there). -/
inductive Provider where
  | Anthropic
deriving DecidableEq, Repr

/-- One usage aggregation result (src/io/unified_dtos.rs `UnifiedUsageEntry`). -/
structure UnifiedUsageEntry where
  uncached_input_tokens : Nat
  cache_read_input_tokens : Nat
  output_tokens : Nat
  model : Option String
  context_window : Option String
deriving DecidableEq, Repr

/-- Rust `Default` for `UnifiedUsageEntry`: zero counters, absent strings. -/
instance : Inhabited UnifiedUsageEntry :=
  ⟨⟨0, 0, 0, none, none⟩⟩

/-- A time bucket of usage entries (src/io/unified_dtos.rs `UnifiedBucketByTime`).
`end` is a Lean keyword, so the exclusive end instant is called `end_`. -/
structure UnifiedBucketByTime where
  start : Int
  end_ : Int
  results : List UnifiedUsageEntry
  provider : Provider
deriving DecidableEq, Repr

/-- Per-(provider, model) running totals.  The struct itself is declared in a
file not present under `src/`, but every field and its meaning is fixed by the
fold body of `make_primitives` (src/calculation/unified.rs lines 104-112):
the three counters are summed and `model` is overwritten from each folded
entry (`entry.model.unwrap_or("Unknown")`), and the fold starts from
`Default::default()`. -/
structure UnifiedUsageEntryCollapsed where
  uncached_input_tokens : Nat
  cache_read_input_tokens : Nat
  output_tokens : Nat
  model : String
deriving DecidableEq, Repr

/-- Rust `Default` for the collapsed record: zero counters, empty string. -/
instance : Inhabited UnifiedUsageEntryCollapsed :=
  ⟨⟨0, 0, 0, ""⟩⟩

/-! ## Pricing table (src/config/pricing_table.rs) -/

/-- One static pricing rule (src/config/pricing_table.rs `PricingTable`). -/
structure PricingTable where
  base_model_name : String
  context_window : String
  input_multiplier : ℚ
  output_multiplier : ℚ
deriving DecidableEq, Repr

/-- The compiled-in pricing table `PRICING`, in declaration order. -/
def PRICING : List PricingTable :=
  [ ⟨"claude-haiku-4-5", "0-200k", 1, 5⟩,
    ⟨"claude-sonnet-4-5", "0-200k", 3, 15⟩,
    ⟨"claude-sonnet-4-5", "200k-1M", 6, 45/2⟩,
    ⟨"claude-sonnet-4", "0-200k", 3, 15⟩,
    ⟨"claude-sonnet-4", "200k-1M", 6, 45/2⟩,
    ⟨"claude-opus-4-5", "0-200k", 5, 25⟩ ]

/-- Application error type (src/error.rs `Error`); only the variants the
modelled code can produce are carried. -/
inductive Error where
  | InvalidDuration (s : String)
  | UnsupportedTimeUnit (s : String)
  | AnthropicKeyNotFound
  | PricingNotFound (model : String) (context_window : String)
deriving DecidableEq, Repr

deriving instance DecidableEq for Except

/-! ## Cache store (src/io/cache.rs) -/

/-- The cache file at one signature path: its content and its filesystem
modification time (`Int` seconds). -/
structure CacheFile where
  content : String
  mtime : Int
deriving DecidableEq, Repr

/-- `is_cache_expired` (src/io/cache.rs lines 51-61): the entry is expired
when `mtime + ttl.minutes() <= system_now`.  Minutes become `ttl * 60`
seconds. -/
def is_cache_expired (f : CacheFile) (system_now ttl : Int) : Bool :=
  f.mtime + ttl * 60 ≤ system_now

/-- `try_retrieve_cache` (src/io/cache.rs lines 7-23), success path: `none`
when the file is absent or expired, otherwise the file content.  (I/O failure
of the underlying syscalls is modelled at the driver level, `MainIo`.) -/
def try_retrieve_cache (fs : Option CacheFile) (ttl system_now : Int) :
    Option String :=
  match fs with
  | none => none
  | some f => if is_cache_expired f system_now ttl then none else some f.content

/-- `try_write_cache` (src/io/cache.rs lines 25-49), success path: if the file
exists and is not expired ("alive") the write is skipped and the state is
untouched; otherwise the body is written, setting the modification time to the
current instant. -/
def try_write_cache (fs : Option CacheFile) (body : String)
    (ttl system_now : Int) : Option CacheFile :=
  let is_cache_alive :=
    match fs with
    | none => false
    | some f => !is_cache_expired f system_now ttl
  if is_cache_alive then fs else some ⟨body, system_now⟩

/-! ## Association-list helpers

Rust `HashMap` accumulation is modelled by association lists kept in first
insertion order.  `alUpdate` is `map.entry(k)`-style update-or-append. -/

/-- Update the value at `k` through `f` (which receives `none` when the key is
absent); an absent key is appended at the end. -/
def alUpdate {β : Type} (l : List (String × β)) (k : String)
    (f : Option β → β) : List (String × β) :=
  match l with
  | [] => [(k, f none)]
  | (k', v) :: rest =>
    if k' = k then (k', f (some v)) :: rest else (k', v) :: alUpdate rest k f

/-! ## Pricing resolver (src/calculation/unified.rs `find_price`) -/

/-- Rust `str::starts_with(pre)`: `pre` is a prefix of `s` (expressed over the
character list so that it evaluates by structural recursion). -/
def starts_with (s pre : String) : Bool :=
  pre.toList.isPrefixOf s.toList

/-- The scan inside `find_price` (src/calculation/unified.rs lines 42-47),
generalised over the table it scans: the first rule, in table order, whose
`base_model_name` is a string prefix of the entry's reported model name;
an absent model matches nothing. -/
def find_price_in (table : List PricingTable) (result_entry : UnifiedUsageEntry) :
    Option PricingTable :=
  table.find? fun table_entry =>
    match result_entry.model with
    | some full_model_name => starts_with full_model_name table_entry.base_model_name
    | none => false

/-- `find_price` (src/calculation/unified.rs lines 38-60): scan the global
`PRICING` table; on failure build `Error::PricingNotFound` from the raw
reported model and context window, defaulting each to `"Unknown"`. -/
def find_price (result_entry : UnifiedUsageEntry) : Except Error PricingTable :=
  match find_price_in PRICING result_entry with
  | some pricing_entry => .ok pricing_entry
  | none =>
    .error (.PricingNotFound (result_entry.model.getD "Unknown")
      (result_entry.context_window.getD "Unknown"))

/-! ## Aggregation pipeline (src/calculation/unified.rs) -/

/-- `try_into_base_model_pairs` (src/calculation/unified.rs lines 73-84):
key every entry by the `base_model_name` of its matched rule, failing fast on
the first entry without a price (`collect::<Result<Vec<_>>>`). -/
def try_into_base_model_pairs (results : List UnifiedUsageEntry) :
    Except Error (List (String × UnifiedUsageEntry)) :=
  match results with
  | [] => .ok []
  | entry :: rest =>
    match find_price entry with
    | .error e => .error e
    | .ok pricing =>
      match try_into_base_model_pairs rest with
      | .error e => .error e
      | .ok tail => .ok ((pricing.base_model_name, entry) :: tail)

/-- The fold body inside `make_primitives` (src/calculation/unified.rs lines
105-112): add the three counters and overwrite `model` with the folded entry's
reported model, defaulting to `"Unknown"`. -/
def collapse_step (collapsed : UnifiedUsageEntryCollapsed)
    (entry : UnifiedUsageEntry) : UnifiedUsageEntryCollapsed :=
  { uncached_input_tokens :=
      collapsed.uncached_input_tokens + entry.uncached_input_tokens
    cache_read_input_tokens :=
      collapsed.cache_read_input_tokens + entry.cache_read_input_tokens
    output_tokens := collapsed.output_tokens + entry.output_tokens
    model := entry.model.getD "Unknown" }

/-- `into_grouping_map().fold(Default::default(), …)` over the keyed pairs
(src/calculation/unified.rs lines 102-113): each pair folds into its key's
accumulator, in pair order. -/
def group_fold (pairs : List (String × UnifiedUsageEntry)) :
    List (String × UnifiedUsageEntryCollapsed) :=
  pairs.foldl
    (fun acc kv => alUpdate acc kv.1 (fun old => collapse_step (old.getD default) kv.2))
    []

/-- The per-key fold `group_fold` performs on the entries of one group:
`foldl` of `collapse_step` from `Default::default()`. -/
def collapse_entries (entries : List UnifiedUsageEntry) :
    UnifiedUsageEntryCollapsed :=
  entries.foldl collapse_step default

/-- `collapse_by_providers` (src/calculation/unified.rs lines 212-230): group
the buckets' entry lists by provider and concatenate each group's lists. -/
def collapse_by_providers (buckets : List UnifiedBucketByTime) :
    List (Provider × List UnifiedUsageEntry) :=
  buckets.foldl
    (fun acc b =>
      match acc.lookup b.provider with
      | some old =>
        acc.map fun pv => if pv.1 = b.provider then (pv.1, old ++ b.results) else pv
      | none => acc ++ [(b.provider, b.results)])
    []

/-- `make_primitives` (src/calculation/unified.rs lines 94-122): for each
provider, key its entries (failing fast on a missing price) and fold them into
per-model collapsed totals. -/
def make_primitives (buckets : List UnifiedBucketByTime) :
    Except Error (List (Provider × List (String × UnifiedUsageEntryCollapsed))) :=
  go (collapse_by_providers buckets)
where
  go : List (Provider × List UnifiedUsageEntry) →
      Except Error (List (Provider × List (String × UnifiedUsageEntryCollapsed)))
  | [] => .ok []
  | (provider, entries) :: rest =>
    match try_into_base_model_pairs entries with
    | .error e => .error e
    | .ok pairs =>
      match go rest with
      | .error e => .error e
      | .ok tail => .ok ((provider, group_fold pairs) :: tail)

/-- `calculate_cost` (src/calculation/unified.rs lines 232-236):
`tokens / 1_000_000.0 * price_per_million`, in exact rational arithmetic. -/
def calculate_cost (tokens : Nat) (price_per_million : ℚ) : ℚ :=
  (tokens : ℚ) / 1000000 * price_per_million

/-- The by-equality table lookup inside `collapse_cost`
(src/calculation/unified.rs lines 189-192). -/
def price_for (base_model_name : String) : Option PricingTable :=
  PRICING.find? fun table_entry => table_entry.base_model_name = base_model_name

/-- The per-model cost computed inside `collapse_cost`
(src/calculation/unified.rs lines 193-201); `none` models the `unwrap` panic
on a key that is not in the table (unreachable for keys produced by
`make_primitives`). -/
def cost_of (base_model_name : String) (entry : UnifiedUsageEntryCollapsed) :
    Option ℚ :=
  (price_for base_model_name).map fun pricing =>
    calculate_cost (entry.uncached_input_tokens + entry.cache_read_input_tokens)
        pricing.input_multiplier
      + calculate_cost entry.output_tokens pricing.output_multiplier

/-- `collapse_cost` (src/calculation/unified.rs lines 180-209): flatten the
per-provider maps, price each (model, collapsed) pair, and sum duplicates of
the same model name across providers (`into_grouping_map().sum()`). -/
def collapse_cost
    (primitive : List (Provider × List (String × UnifiedUsageEntryCollapsed))) :
    Option (List (String × ℚ)) :=
  match priced (primitive.flatMap fun pv => pv.2) with
  | none => none
  | some costs => some (costs.foldl (fun acc kv => alUpdate acc kv.1 (fun o => o.getD 0 + kv.2)) [])
where
  priced : List (String × UnifiedUsageEntryCollapsed) → Option (List (String × ℚ))
  | [] => some []
  | (name, entry) :: rest =>
    match cost_of name entry, priced rest with
    | some c, some tail => some ((name, c) :: tail)
    | _, _ => none

/-- `collapse_tokens` (src/calculation/unified.rs lines 136-166): per-model
total token counts, summed across providers. -/
def collapse_tokens
    (primitive : List (Provider × List (String × UnifiedUsageEntryCollapsed))) :
    List (String × Nat) :=
  (primitive.flatMap fun pv =>
      pv.2.map fun kv =>
        (kv.1,
          kv.2.uncached_input_tokens + kv.2.cache_read_input_tokens
            + kv.2.output_tokens)).foldl
    (fun acc kv => alUpdate acc kv.1 (fun o => o.getD 0 + kv.2)) []

/-- `fold` (src/calculation/unified.rs lines 169-174): sum the values of the
map. -/
def fold_values {β : Type} [AddCommMonoid β] (some_map : List (String × β)) : β :=
  (some_map.map fun kv => kv.2).sum

/-! ## Report model and renderer (src/calculation/usage_report.rs)

Rust formats `f64` values with `value.to_string()` (shortest exact decimal)
and `format!("{:.2}", value)` (two fractional digits).  Our `ℚ` counterparts
are `ratToString` (exact decimal expansion when the denominator divides a
power of ten, which holds for every `f64`-representable value) and
`twoDecimalString` (rounding to cents). -/

/-- Smallest exponent `e ≤ 1100` with `den ∣ 10 ^ e`; `1100` covers every
`f64` denominator (at most `2 ^ 1074`). -/
def decExponent (den : Nat) : Option Nat :=
  (List.range 1100).find? fun e => 10 ^ e % den == 0

/-- Decimal digits of `n`, left-padded with zeros to `width`. -/
def padLeftZeros (width n : Nat) : String :=
  let s := toString n
  String.mk (List.replicate (width - s.length) '0') ++ s

/-- Drop trailing `'0'` characters. -/
def trimTrailingZeros (s : String) : String :=
  String.mk ((s.toList.reverse.dropWhile fun c => c == '0').reverse)

/-- Model of Rust `f64::to_string` on an exactly-represented value: the
shortest exact decimal expansion (integer values print without a dot). -/
def ratToString (q : ℚ) : String :=
  match decExponent q.den with
  | none => toString q.num ++ "/" ++ toString q.den
  | some e =>
    let sign := if q.num < 0 then "-" else ""
    let scaled := q.num.natAbs * (10 ^ e / q.den)
    let intPart := scaled / 10 ^ e
    let fracPart := scaled % 10 ^ e
    if fracPart = 0 then sign ++ toString intPart
    else sign ++ toString intPart ++ "." ++ trimTrailingZeros (padLeftZeros e fracPart)

/-- Two-digit zero padding for the cents column. -/
def pad2 (n : Nat) : String :=
  if n < 10 then "0" ++ toString n else toString n

/-- Model of Rust `format!("{:.2}", value)`: round to cents and print with
exactly two fractional digits. -/
def twoDecimalString (q : ℚ) : String :=
  let cents : Int := round (q * 100)
  let sign := if cents < 0 then "-" else ""
  sign ++ toString (cents.natAbs / 100) ++ "." ++ pad2 (cents.natAbs % 100)

/-- `render_token` (src/calculation/usage_report.rs line 114). -/
def render_token (value : Nat) : String :=
  toString value

/-- `render_money` (src/calculation/usage_report.rs lines 121-133): raw value
when `no_format`, otherwise two fractional digits with a dollar symbol unless
`with_symbol` is `Some(false)` (the default is `true`). -/
def render_money (value : ℚ) (no_format : Bool) (with_symbol : Option Bool) :
    String :=
  if no_format then ratToString value
  else
    let symbol := if with_symbol.getD true then "$" else ""
    symbol ++ twoDecimalString value

/-- `UsageReport` (src/calculation/usage_report.rs lines 9-18); the `Map`
variant's `HashMap` is an association list in iteration order. -/
inductive UsageReport where
  | Token (n : Nat)
  | Money (x : ℚ)
  | Map (entries : List (String × UsageReport))
  | Raw (text : String)

/-- csv crate field quoting: a field is quoted exactly when it contains the
delimiter, a quote, or a line break; inner quotes are doubled. -/
def csvField (s : String) : String :=
  if s.toList.any (fun c => c == ',' || c == '"' || c == '\n' || c == '\r') then
    "\"" ++ String.join (s.toList.map fun c =>
      if c == '"' then "\"\"" else String.singleton c) ++ "\""
  else s

/-- One headerless two-column csv record, newline-terminated. -/
def csvRow (display_name content : String) : String :=
  csvField display_name ++ "," ++ csvField content ++ "\n"

mutual

/-- `UsageReport::render` (src/calculation/usage_report.rs lines 24-37):
`none` models the `unreachable!` panic on the `Raw` variant. -/
def render : UsageReport → Bool → Option Bool → Option String
  | .Token number, _, _ => some (render_token number)
  | .Money number, no_format, with_symbol =>
    some (render_money number no_format with_symbol)
  | .Map entries, no_format, _ => format_csv entries no_format
  | .Raw _, _, _ => none

/-- `format_csv` (src/calculation/usage_report.rs lines 40-110): one
headerless row per entry.  A `Money` value is special-cased: the display key
is augmented with the cost rendered under `with_symbol = Some(!no_format)` and
the value column holds the cost rendered under `with_symbol = Some(false)`;
every other value is rendered with `with_symbol = None`. -/
def format_csv : List (String × UsageReport) → Bool → Option String
  | [], _ => some ""
  | (key, .Money x) :: rest, no_format =>
    let cost_with_symbol := render_money x no_format (some !no_format)
    let cost_without_symbol := render_money x no_format (some false)
    let display_column := key ++ " (" ++ cost_with_symbol ++ ")"
    (match format_csv rest no_format with
     | some tail => some (csvRow display_column cost_without_symbol ++ tail)
     | none => none)
  | (key, value) :: rest, no_format =>
    match render value no_format none with
    | some content =>
      (match format_csv rest no_format with
       | some tail => some (csvRow key content ++ tail)
       | none => none)
    | none => none

end

/-! ## CLI argument model (src/main.rs lines 335-431) -/

/-- `enum Metric` (src/main.rs lines 411-417). -/
inductive Metric where
  | Cost
  | Tokens
deriving DecidableEq, Repr

/-- `enum Grouping` (src/main.rs lines 419-425). -/
inductive Grouping where
  | Model
deriving DecidableEq, Repr

/-- `struct SumArgs` (src/main.rs lines 400-409). -/
structure SumArgs where
  metric : Metric
  group_by : Option Grouping
deriving DecidableEq, Repr

/-- `enum Commands` (src/main.rs lines 386-398). -/
inductive Commands where
  | Sum (args : SumArgs)
  | Raw
deriving DecidableEq, Repr

/-- `struct Cli` (src/main.rs lines 335-384), fields in declaration order.
`no_animate` and `ttl_minutes` carry `#[serde(skip)]` in the source. -/
structure Cli where
  command : Commands
  no_animate : Bool
  unformatted : Bool
  ttl_minutes : Int
  since : String
  anthropic_admin_api_key : Option String
  provider : List Provider
deriving DecidableEq, Repr

/-! ## Cache signature (src/main.rs `create_args_signature`)

`serde_json::to_string(cli)` serializes the struct fields in declaration
order, skipping the `#[serde(skip)]` fields, with externally tagged enums and
kebab-cased `Metric` / `Grouping` / `Provider` variants. -/

/-- serde_json string escaping: `"` and `\` are escaped, control characters
use the conventional short escapes or `\u00XX`. -/
def jsonEscapeChar (c : Char) : String :=
  if c == '"' then "\\\""
  else if c == '\\' then "\\\\"
  else if c == '\n' then "\\n"
  else if c == '\r' then "\\r"
  else if c == '\t' then "\\t"
  else if c.toNat < 32 then
    "\\u00" ++ pad2Hex c.toNat
  else String.singleton c
where
  pad2Hex (n : Nat) : String :=
    String.singleton (Nat.digitChar (n / 16)) ++ String.singleton (Nat.digitChar (n % 16))

/-- A JSON string literal for `s`. -/
def jsonString (s : String) : String :=
  "\"" ++ String.join (s.toList.map jsonEscapeChar) ++ "\""

/-- serde serialization of `Metric` (kebab-case variant names). -/
def serializeMetric : Metric → String
  | .Cost => "\"cost\""
  | .Tokens => "\"tokens\""

/-- serde serialization of `Grouping` (kebab-case variant names). -/
def serializeGrouping : Grouping → String
  | .Model => "\"model\""

/-- serde serialization of `Provider` (kebab-case variant names). -/
def serializeProvider : Provider → String
  | .Anthropic => "\"anthropic\""

/-- serde serialization of `Option` values: `null` or the value. -/
def serializeOptString : Option String → String
  | none => "null"
  | some s => jsonString s

/-- serde serialization of `SumArgs`. -/
def serializeSumArgs (args : SumArgs) : String :=
  "\x7b\"metric\":" ++ serializeMetric args.metric ++ ",\"group_by\":"
    ++ (match args.group_by with
        | none => "null"
        | some g => serializeGrouping g)
    ++ "\x7d"

/-- serde serialization of `Commands` (externally tagged). -/
def serializeCommands : Commands → String
  | .Sum args => "\x7b\"Sum\":" ++ serializeSumArgs args ++ "\x7d"
  | .Raw => "\"Raw\""

/-- serde serialization of the provider list. -/
def serializeProviders (l : List Provider) : String :=
  "[" ++ String.intercalate "," (l.map serializeProvider) ++ "]"

/-- `serde_json::to_string(&cli)` (invoked by `create_args_signature`,
src/main.rs lines 257-265): the struct's non-skipped fields in declaration
order.  `no_animate` and `ttl_minutes` are `#[serde(skip)]` and never read. -/
def serializeCli (cli : Cli) : String :=
  "\x7b\"command\":" ++ serializeCommands cli.command
    ++ ",\"unformatted\":" ++ (if cli.unformatted then "true" else "false")
    ++ ",\"since\":" ++ jsonString cli.since
    ++ ",\"anthropic_admin_api_key\":" ++ serializeOptString cli.anthropic_admin_api_key
    ++ ",\"provider\":" ++ serializeProviders cli.provider
    ++ "\x7d"

/-! XXH64 (the `twox_hash::XxHash64` hasher used by
`generate_cache_filename`), over `Nat` with explicit 64-bit masking. -/

def xxPrime1 : Nat := 11400714785074694791
def xxPrime2 : Nat := 14029467366897019727
def xxPrime3 : Nat := 1609587929392839161
def xxPrime4 : Nat := 9650029242287828579
def xxPrime5 : Nat := 2870177450012600261

/-- Truncate to 64 bits. -/
def mask64 (n : Nat) : Nat := n % 2 ^ 64

/-- 64-bit left rotation (`0 < r < 64`, `x < 2 ^ 64`). -/
def rotl64 (x r : Nat) : Nat :=
  mask64 (x * 2 ^ r) + x / 2 ^ (64 - r)

/-- XXH64 accumulator round. -/
def xxRound (acc lane : Nat) : Nat :=
  mask64 (rotl64 (mask64 (acc + mask64 (lane * xxPrime2))) 31 * xxPrime1)

/-- XXH64 merge round for the final accumulator. -/
def xxMergeRound (acc v : Nat) : Nat :=
  mask64 (mask64 ((acc ^^^ xxRound 0 v) * xxPrime1) + xxPrime4)

/-- Little-endian word read from the first `k` bytes. -/
def leWord : List Nat → Nat
  | [] => 0
  | b :: rest => b + 256 * leWord rest

/-- XXH64 avalanche finalization. -/
def xxAvalanche (acc : Nat) : Nat :=
  let a1 := mask64 ((acc ^^^ acc / 2 ^ 33) * xxPrime2)
  let a2 := mask64 ((a1 ^^^ a1 / 2 ^ 29) * xxPrime3)
  a2 ^^^ a2 / 2 ^ 32

/-- XXH64 tail: consume the remaining bytes in 8-, 4-, then 1-byte steps. -/
def xxFinish (acc : Nat) (bytes : List Nat) : Nat :=
  if _h8 : 8 ≤ bytes.length then
    xxFinish (mask64 (mask64 (rotl64 (acc ^^^ xxRound 0 (leWord (bytes.take 8))) 27 * xxPrime1)
      + xxPrime4)) (bytes.drop 8)
  else if _h4 : 4 ≤ bytes.length then
    xxFinish (mask64 (mask64 (rotl64 (acc ^^^ mask64 (leWord (bytes.take 4) * xxPrime1)) 23
      * xxPrime2) + xxPrime3)) (bytes.drop 4)
  else
    match bytes with
    | [] => acc
    | b :: rest =>
      xxFinish (mask64 (rotl64 (acc ^^^ mask64 (b * xxPrime5)) 11 * xxPrime1)) rest
termination_by bytes.length
decreasing_by
  all_goals simp only [List.length_drop, List.length_cons]
  all_goals omega

/-- XXH64 stripe loop over 32-byte blocks. -/
def xxStripes (v1 v2 v3 v4 : Nat) (bytes : List Nat) :
    Nat × Nat × Nat × Nat × List Nat :=
  if 32 ≤ bytes.length then
    xxStripes (xxRound v1 (leWord (bytes.take 8)))
      (xxRound v2 (leWord ((bytes.drop 8).take 8)))
      (xxRound v3 (leWord ((bytes.drop 16).take 8)))
      (xxRound v4 (leWord ((bytes.drop 24).take 8)))
      (bytes.drop 32)
  else (v1, v2, v3, v4, bytes)
termination_by bytes.length
decreasing_by simp only [List.length_drop]; omega

/-- XXH64 of a byte sequence with seed 0 (the `XxHash64::default()` /
`write` / `finish` sequence in `generate_cache_filename`). -/
def xxh64 (bytes : List Nat) : Nat :=
  let seed := 0
  let acc :=
    if 32 ≤ bytes.length then
      let r := xxStripes (mask64 (seed + xxPrime1 + xxPrime2)) (mask64 (seed + xxPrime2))
        seed (mask64 (seed + 2 ^ 64 - xxPrime1)) bytes
      let merged := mask64 (rotl64 r.1 1 + rotl64 r.2.1 7 + rotl64 r.2.2.1 12
        + rotl64 r.2.2.2.1 18)
      (xxMergeRound (xxMergeRound (xxMergeRound (xxMergeRound merged r.1) r.2.1) r.2.2.1)
        r.2.2.2.1, r.2.2.2.2)
    else (mask64 (seed + xxPrime5), bytes)
  xxAvalanche (xxFinish (mask64 (acc.1 + bytes.length)) acc.2)

/-- Lowercase hexadecimal digits of `n` (Rust `format!("\x7b:x\x7d", n)`). -/
def toHex (n : Nat) : String :=
  if n = 0 then "0" else String.mk (go n)
where
  go : Nat → List Char
  | 0 => []
  | n + 1 => go ((n + 1) / 16) ++ [Nat.digitChar ((n + 1) % 16)]

/-- `generate_cache_filename` (src/main.rs lines 243-251): lowercase hex of
the XXH64 of the serialized argument bytes. -/
def generate_cache_filename (serialized_args : String) : String :=
  toHex (xxh64 (serialized_args.toUTF8.toList.map fun b => b.toNat))

/-- `create_args_signature` (src/main.rs lines 257-265): hash of the
serde_json serialization of the CLI arguments. -/
def create_args_signature (cli : Cli) : String :=
  generate_cache_filename (serializeCli cli)

/-! ## Driver control flow (src/main.rs `main`, lines 107-222)

`main` retrieves the cache; a read failure aborts immediately (before any
upstream call), a hit short-circuits the fetch, and a miss runs the fetch +
aggregation + render (abstracted here as an `Except`-valued outcome since the
transport is an external collaborator).  The resulting `output_message` is
written back to the cache only when it is non-empty, and only printed
(`stop_spin_with_message`) after that write step succeeded — a failing write
propagates through `?` before anything is printed. -/

/-- `format` (src/main.rs lines 229-235): raw number when `no_format`, else
two decimals with a dollar sign. -/
def format (calculated_number : ℚ) (no_format : Bool) : String :=
  if no_format then ratToString calculated_number
  else "$" ++ twoDecimalString calculated_number

/-- The fallible environment `main` runs against: the cache file at the
request's signature path, plus injected I/O failure for the read and write
syscall sequences of the cache store. -/
structure MainIo where
  fs : Option CacheFile
  readFails : Bool
  writeFails : Bool

/-- The observable result of one `main` invocation. -/
structure MainResult where
  /-- `.ok text`: the process printed `text`; `.error e`: it aborted with `e`
  and printed nothing. -/
  outcome : Except String String
  /-- Whether the upstream fetch was attempted. -/
  upstreamCalled : Bool
  /-- Whether `try_write_cache` was invoked. -/
  writeInvoked : Bool
  /-- The cache file state after the invocation. -/
  fs : Option CacheFile
deriving Repr

/-- The tail of `main` (src/main.rs lines 214-221): write the non-empty
output back (aborting on a write failure before printing), then print. -/
def main_finish (io : MainIo) (output_message : String) (upstreamCalled : Bool)
    (ttl system_now : Int) : MainResult :=
  if output_message = "" then
    ⟨.ok output_message, upstreamCalled, false, io.fs⟩
  else if io.writeFails then
    ⟨.error "cache write failed", upstreamCalled, true, io.fs⟩
  else
    ⟨.ok output_message, upstreamCalled, true,
      try_write_cache io.fs output_message ttl system_now⟩

/-- `main` (src/main.rs lines 107-222) for a fixed request: `fetch_render`
abstracts the upstream fetch plus aggregation plus render performed on a cache
miss (its `Except` covers fetch and pricing failures). -/
def main_flow (io : MainIo) (fetch_render : Except String String)
    (ttl system_now : Int) : MainResult :=
  if io.readFails then
    ⟨.error "Cache failed to load. Aborting to avoid the API ban (you're welcome).",
      false, false, io.fs⟩
  else
    match try_retrieve_cache io.fs ttl system_now with
    | some cached_string => main_finish io cached_string false ttl system_now
    | none =>
      match fetch_render with
      | .error e => ⟨.error e, true, false, io.fs⟩
      | .ok output_message => main_finish io output_message true ttl system_now

/-! ## Theorems -/

/-- C1: the claim's inclusive freshness boundary is refuted by the code.  At
the concrete input `mtime = 0`, `ttl_minutes = 1`, `now = 60` seconds we have
`file_modification_time + ttl_minutes >= now` (60 ≥ 60), yet
`try_retrieve_cache` reports the entry stale (`none`), because
`is_cache_expired` uses `expiration_time <= *system_now`. -/
theorem c1_counterexample :
    ¬ (∀ (f : CacheFile) (ttl system_now : Int),
        try_retrieve_cache (some f) ttl system_now = some f.content ↔
          system_now ≤ f.mtime + ttl * 60) := by
  intro h
  have h60 := (h ⟨"x", 0⟩ 1 60).mpr (by decide)
  exact absurd h60 (by decide)

/-- C1 (amended): the freshness boundary is exclusive.  For an existing cache
file, `try_retrieve_cache` returns the cached text precisely when
`file_modification_time + ttl_minutes > now` (strictly); at exactly
`T + ttl_minutes` the entry is already reported stale, and an absent file is
always a miss. -/
theorem c1_freshness_boundary_exclusive :
    ∀ (f : CacheFile) (ttl system_now : Int),
      (try_retrieve_cache (some f) ttl system_now = some f.content ↔
        system_now < f.mtime + ttl * 60) ∧
      (system_now = f.mtime + ttl * 60 →
        try_retrieve_cache (some f) ttl system_now = none) ∧
      try_retrieve_cache none ttl system_now = none := by
  intro f ttl system_now
  refine ⟨?_, ?_, rfl⟩
  · constructor
    · intro hret
      by_contra hlt
      have hexp : f.mtime + ttl * 60 ≤ system_now := by omega
      simp [try_retrieve_cache, is_cache_expired, hexp] at hret
    · intro hlt
      have hexp : ¬ (f.mtime + ttl * 60 ≤ system_now) := by omega
      simp [try_retrieve_cache, is_cache_expired, hexp]
  · intro heq
    have h : f.mtime + ttl * 60 ≤ system_now := le_of_eq heq.symm
    simp [try_retrieve_cache, is_cache_expired, h]

/-- C1 witness: at `mtime = 0`, `ttl = 1` the entry is fresh one second before
the boundary and stale exactly at `T + 1` minute. -/
theorem c1_freshness_boundary_exclusive_witness :
    try_retrieve_cache (some ⟨"cached text", 0⟩) 1 59 = some "cached text" ∧
    try_retrieve_cache (some ⟨"cached text", 0⟩) 1 60 = none :=
  ⟨(c1_freshness_boundary_exclusive ⟨"cached text", 0⟩ 1 59).1.mpr (by decide),
   (c1_freshness_boundary_exclusive ⟨"cached text", 0⟩ 1 60).2.1 (by decide)⟩

/-- C3: when the cache file exists and is still fresh at the supplied `now`,
`try_write_cache` skips the write entirely — content and modification time are
unchanged — and therefore a second store in immediate succession is also a
no-op. -/
theorem c3_store_skips_fresh_entry :
    ∀ (f : CacheFile) (body : String) (ttl system_now : Int),
      is_cache_expired f system_now ttl = false →
      try_write_cache (some f) body ttl system_now = some f ∧
      try_write_cache (try_write_cache (some f) body ttl system_now) body ttl
        system_now = some f := by
  intro f body ttl system_now h
  have h1 : try_write_cache (some f) body ttl system_now = some f := by
    simp [try_write_cache, h]
  exact ⟨h1, by rw [h1]; exact h1⟩

/-- C3 witness: a file written at time 0 with a 5-minute TTL is fresh at
`now = 60`, so both stores leave it untouched. -/
theorem c3_store_skips_fresh_entry_witness :
    is_cache_expired ⟨"hello", 0⟩ 60 5 = false ∧
    try_write_cache (some ⟨"hello", 0⟩) "hello" 5 60 = some ⟨"hello", 0⟩ ∧
    try_write_cache (try_write_cache (some ⟨"hello", 0⟩) "hello" 5 60) "hello" 5 60
      = some ⟨"hello", 0⟩ :=
  ⟨by decide,
   (c3_store_skips_fresh_entry ⟨"hello", 0⟩ "hello" 5 60 (by decide)).1,
   (c3_store_skips_fresh_entry ⟨"hello", 0⟩ "hello" 5 60 (by decide)).2⟩

/-- C2: the claim's partial-success path is refuted by the code.  Concrete
input: absent cache file, successful fetch/aggregation/render producing
`"report"`, failing cache write.  `try_write_cache(...)?` propagates the error
before `stop_spin_with_message` runs, so the invocation aborts and the freshly
computed report is not printed. -/
theorem c2_counterexample :
    (main_flow ⟨none, false, true⟩ (.ok "report") 1 0).outcome
        = .error "cache write failed" ∧
    (main_flow ⟨none, false, true⟩ (.ok "report") 1 0).outcome
        ≠ .ok "report" ∧
    (main_flow ⟨none, false, true⟩ (.ok "report") 1 0).upstreamCalled = true := by
  refine ⟨rfl, ?_, rfl⟩
  intro h
  have h1 : (main_flow ⟨none, false, true⟩ (.ok "report") 1 0).outcome
      = .error "cache write failed" := rfl
  rw [h1] at h
  exact Except.noConfusion h

/-- C2 (amended): a cache read failure is fatal and aborts before any
upstream call is attempted; a cache write failure after a successful fetch,
aggregation and render is also fatal — the invocation aborts with the write
error and the freshly computed report text is NOT printed (the cache file is
left unchanged). -/
theorem c2_cache_io_failures_abort :
    ∀ (fs : Option CacheFile) (fetch_render : Except String String)
      (ttl system_now : Int) (text : String),
      ((main_flow ⟨fs, true, false⟩ fetch_render ttl system_now).outcome
          = .error "Cache failed to load. Aborting to avoid the API ban (you're welcome)." ∧
        (main_flow ⟨fs, true, false⟩ fetch_render ttl system_now).upstreamCalled
          = false) ∧
      (try_retrieve_cache fs ttl system_now = none →
        fetch_render = .ok text →
        text ≠ "" →
        (main_flow ⟨fs, false, true⟩ fetch_render ttl system_now).outcome
            = .error "cache write failed" ∧
          (main_flow ⟨fs, false, true⟩ fetch_render ttl system_now).upstreamCalled
            = true ∧
          (main_flow ⟨fs, false, true⟩ fetch_render ttl system_now).fs = fs) := by
  intro fs fetch_render ttl system_now text
  refine ⟨⟨rfl, rfl⟩, ?_⟩
  intro hmiss hfetch htext
  subst hfetch
  simp [main_flow, main_finish, hmiss, htext]

/-- C2 witness: concrete miss + successful fetch of `"report"` + failing
write. -/
theorem c2_cache_io_failures_abort_witness :
    ((main_flow ⟨some ⟨"old", 0⟩, true, false⟩ (.ok "report") 1 0).outcome
        = .error "Cache failed to load. Aborting to avoid the API ban (you're welcome)." ∧
      (main_flow ⟨some ⟨"old", 0⟩, true, false⟩ (.ok "report") 1 0).upstreamCalled
        = false) ∧
    ((main_flow ⟨some ⟨"old", 0⟩, false, true⟩ (.ok "report") 1 60).outcome
        = .error "cache write failed" ∧
      (main_flow ⟨some ⟨"old", 0⟩, false, true⟩ (.ok "report") 1 60).upstreamCalled
        = true ∧
      (main_flow ⟨some ⟨"old", 0⟩, false, true⟩ (.ok "report") 1 60).fs
        = some ⟨"old", 0⟩) :=
  ⟨(c2_cache_io_failures_abort (some ⟨"old", 0⟩) (.ok "report") 1 0 "report").1,
   (c2_cache_io_failures_abort (some ⟨"old", 0⟩) (.ok "report") 1 60 "report").2
     (by decide) rfl (by decide)⟩

/-- Inversion for a cache hit: the file exists, is unexpired, and the hit
returns its content. -/
theorem retrieve_some_inv {fs : Option CacheFile} {ttl system_now : Int}
    {s : String} (h : try_retrieve_cache fs ttl system_now = some s) :
    ∃ f, fs = some f ∧ s = f.content := by
  match fs with
  | none => exact absurd h (by simp [try_retrieve_cache])
  | some f =>
    by_cases hexp : is_cache_expired f system_now ttl = true
    · simp [try_retrieve_cache, hexp] at h
    · refine ⟨f, rfl, ?_⟩
      simp [try_retrieve_cache, hexp] at h
      exact h.symm

/-- A cache miss stays a miss at any later instant (the file is unchanged). -/
theorem retrieve_none_mono {fs : Option CacheFile} {ttl system_now later : Int}
    (h : try_retrieve_cache fs ttl system_now = none)
    (hle : system_now ≤ later) : try_retrieve_cache fs ttl later = none := by
  match fs with
  | none => rfl
  | some f =>
    by_cases hexp : f.mtime + ttl * 60 ≤ system_now
    · have hlater : f.mtime + ttl * 60 ≤ later := le_trans hexp hle
      simp [try_retrieve_cache, is_cache_expired, hlater]
    · simp [try_retrieve_cache, is_cache_expired, hexp] at h

/-- Writing a non-empty body preserves the property that the cache file, if
present, has non-empty content. -/
theorem try_write_cache_wf {fs : Option CacheFile} {body : String}
    {ttl system_now : Int} (hwf : ∀ f, fs = some f → f.content ≠ "")
    (hbody : body ≠ "") :
    ∀ f', try_write_cache fs body ttl system_now = some f' →
      f'.content ≠ "" := by
  intro f' h
  simp only [try_write_cache] at h
  split at h
  · exact hwf f' h
  · rw [← Option.some_inj.mp h]
    exact hbody

/-- C10: an empty rendered output is never persisted.  For every invocation
(with working cache I/O) against a cache state whose file, if present, has
non-empty content — an invariant every successful write maintains, since only
non-empty outputs are written — an empty final output implies the write step
was never invoked, the cache file state is unchanged, and every later lookup
at the same signature still misses; moreover the non-empty-content invariant
itself is preserved by every invocation. -/
theorem c10_empty_output_never_persisted :
    ∀ (fs : Option CacheFile) (fetch_render : Except String String)
      (ttl system_now : Int),
      (∀ f, fs = some f → f.content ≠ "") →
      (((main_flow ⟨fs, false, false⟩ fetch_render ttl system_now).outcome = .ok "" →
        (main_flow ⟨fs, false, false⟩ fetch_render ttl system_now).writeInvoked
            = false ∧
          (main_flow ⟨fs, false, false⟩ fetch_render ttl system_now).fs = fs ∧
          ∀ later, system_now ≤ later → try_retrieve_cache fs ttl later = none) ∧
        ∀ f', (main_flow ⟨fs, false, false⟩ fetch_render ttl system_now).fs
            = some f' → f'.content ≠ "") := by
  intro fs fetch_render ttl system_now hwf
  constructor
  · intro hout
    match hfs : try_retrieve_cache fs ttl system_now with
    | some cached =>
      exfalso
      obtain ⟨f, hf, hc⟩ := retrieve_some_inv hfs
      have hcached : cached ≠ "" := by rw [hc]; exact hwf f hf
      have hred : (main_flow ⟨fs, false, false⟩ fetch_render ttl system_now).outcome
          = .ok cached := by
        simp [main_flow, hfs, main_finish, hcached]
      rw [hred] at hout
      apply hcached
      injection hout
    | none =>
      cases hfr : fetch_render with
      | error e =>
        exfalso
        have hred : (main_flow ⟨fs, false, false⟩ (.error e) ttl system_now).outcome
            = .error e := by
          simp [main_flow, hfs]
        rw [hfr] at hout
        rw [hred] at hout
        exact Except.noConfusion hout
      | ok msg =>
        by_cases hne : msg = ""
        · subst hne
          have hred : main_flow ⟨fs, false, false⟩ (.ok "") ttl system_now
              = ⟨.ok "", true, false, fs⟩ := by
            simp [main_flow, hfs, main_finish]
          rw [hred]
          exact ⟨rfl, rfl, fun later hle => retrieve_none_mono hfs hle⟩
        · exfalso
          have hred : (main_flow ⟨fs, false, false⟩ (.ok msg) ttl system_now).outcome
              = .ok msg := by
            simp [main_flow, hfs, main_finish, hne]
          rw [hfr] at hout
          rw [hred] at hout
          apply hne
          injection hout
  · intro f' hf'
    match hfs : try_retrieve_cache fs ttl system_now with
    | some cached =>
      obtain ⟨f, hf, hc⟩ := retrieve_some_inv hfs
      have hcached : cached ≠ "" := by rw [hc]; exact hwf f hf
      have hred : (main_flow ⟨fs, false, false⟩ fetch_render ttl system_now).fs
          = try_write_cache fs cached ttl system_now := by
        simp [main_flow, hfs, main_finish, hcached]
      rw [hred] at hf'
      exact try_write_cache_wf hwf hcached f' hf'
    | none =>
      cases hfr : fetch_render with
      | error e =>
        have hred : (main_flow ⟨fs, false, false⟩ (.error e) ttl system_now).fs
            = fs := by
          simp [main_flow, hfs]
        rw [hfr] at hf'
        rw [hred] at hf'
        exact hwf f' hf'
      | ok msg =>
        by_cases hne : msg = ""
        · subst hne
          have hred : (main_flow ⟨fs, false, false⟩ (.ok "") ttl system_now).fs
              = fs := by
            simp [main_flow, hfs, main_finish]
          rw [hfr] at hf'
          rw [hred] at hf'
          exact hwf f' hf'
        · have hred : (main_flow ⟨fs, false, false⟩ (.ok msg) ttl system_now).fs
              = try_write_cache fs msg ttl system_now := by
            simp [main_flow, hfs, main_finish, hne]
          rw [hfr] at hf'
          rw [hred] at hf'
          exact try_write_cache_wf hwf hne f' hf'

/-- C10 witness: absent cache file, recompute renders the empty string — the
write is skipped, the state stays absent, later lookups miss. -/
theorem c10_empty_output_never_persisted_witness :
    (main_flow ⟨none, false, false⟩ (.ok "") 1 0).writeInvoked = false ∧
    (main_flow ⟨none, false, false⟩ (.ok "") 1 0).fs = none ∧
    try_retrieve_cache none 1 90 = none :=
  let h := (c10_empty_output_never_persisted none (.ok "") 1 0
    (fun _ h => nomatch h)).1 rfl
  ⟨h.1, h.2.1, h.2.2 90 (by decide)⟩

/-- The three token counters of the grouping fold are the accumulator's
counters plus the field-wise sums of the folded entries. -/
theorem collapse_foldl_counters (l : List UnifiedUsageEntry)
    (acc : UnifiedUsageEntryCollapsed) :
    (l.foldl collapse_step acc).uncached_input_tokens
        = acc.uncached_input_tokens
          + (l.map fun e => e.uncached_input_tokens).sum ∧
    (l.foldl collapse_step acc).cache_read_input_tokens
        = acc.cache_read_input_tokens
          + (l.map fun e => e.cache_read_input_tokens).sum ∧
    (l.foldl collapse_step acc).output_tokens
        = acc.output_tokens + (l.map fun e => e.output_tokens).sum := by
  induction l generalizing acc with
  | nil => simp
  | cons e rest ih =>
    obtain ⟨ih1, ih2, ih3⟩ := ih (collapse_step acc e)
    rw [List.foldl_cons]
    refine ⟨?_, ?_, ?_⟩
    · rw [ih1]; simp [collapse_step, Nat.add_assoc]
    · rw [ih2]; simp [collapse_step, Nat.add_assoc]
    · rw [ih3]; simp [collapse_step, Nat.add_assoc]

/-- C4: the claim fails on the code: the collapsed value is not independent of
fold order in every field.  Two entries with the same aggregation key
`"claude-haiku-4-5"` but different raw model suffixes produce, through
`make_primitives`, collapsed values that differ in the `model` field depending
on the order of the entries (the fold overwrites `collapsed.model` with each
entry's reported model). -/
theorem c4_counterexample :
    make_primitives
        [⟨0, 86400,
          [⟨1, 2, 3, some "claude-haiku-4-5-a", none⟩,
           ⟨10, 20, 30, some "claude-haiku-4-5-b", none⟩], .Anthropic⟩]
      = .ok [(.Anthropic,
          [("claude-haiku-4-5", ⟨11, 22, 33, "claude-haiku-4-5-b"⟩)])] ∧
    make_primitives
        [⟨0, 86400,
          [⟨10, 20, 30, some "claude-haiku-4-5-b", none⟩,
           ⟨1, 2, 3, some "claude-haiku-4-5-a", none⟩], .Anthropic⟩]
      = .ok [(.Anthropic,
          [("claude-haiku-4-5", ⟨11, 22, 33, "claude-haiku-4-5-a"⟩)])] ∧
    (⟨11, 22, 33, "claude-haiku-4-5-b"⟩ : UnifiedUsageEntryCollapsed)
      ≠ ⟨11, 22, 33, "claude-haiku-4-5-a"⟩ := by
  refine ⟨by decide, by decide, by decide⟩

/-- C4 (amended): for entries sharing an aggregation key, the fold performed
by `make_primitives` is order-independent in the three token counters (they
are commutative sums), but the collapsed `model` field equals the *last*
folded entry's reported model name (defaulted to `"Unknown"`), so the full
`CollapsedUsage` value may depend on fold order. -/
theorem c4_token_counters_order_independent :
    (∀ (l1 l2 : List UnifiedUsageEntry), l1.Perm l2 →
      (collapse_entries l1).uncached_input_tokens
          = (collapse_entries l2).uncached_input_tokens ∧
        (collapse_entries l1).cache_read_input_tokens
          = (collapse_entries l2).cache_read_input_tokens ∧
        (collapse_entries l1).output_tokens
          = (collapse_entries l2).output_tokens) ∧
    ∀ (init : List UnifiedUsageEntry) (e : UnifiedUsageEntry),
      (collapse_entries (init ++ [e])).model = e.model.getD "Unknown" := by
  constructor
  · intro l1 l2 hp
    obtain ⟨a1, b1, c1⟩ := collapse_foldl_counters l1 default
    obtain ⟨a2, b2, c2⟩ := collapse_foldl_counters l2 default
    refine ⟨?_, ?_, ?_⟩
    · rw [collapse_entries, collapse_entries, a1, a2,
        (hp.map fun e => e.uncached_input_tokens).sum_eq]
    · rw [collapse_entries, collapse_entries, b1, b2,
        (hp.map fun e => e.cache_read_input_tokens).sum_eq]
    · rw [collapse_entries, collapse_entries, c1, c2,
        (hp.map fun e => e.output_tokens).sum_eq]
  · intro init e
    simp [collapse_entries, List.foldl_append, collapse_step]

/-- C4 witness: a concrete two-entry permutation with equal counters. -/
theorem c4_token_counters_order_independent_witness :
    (collapse_entries
        [⟨1, 2, 3, some "claude-haiku-4-5-a", none⟩,
         ⟨10, 20, 30, some "claude-haiku-4-5-b", none⟩]).uncached_input_tokens
      = (collapse_entries
        [⟨10, 20, 30, some "claude-haiku-4-5-b", none⟩,
         ⟨1, 2, 3, some "claude-haiku-4-5-a", none⟩]).uncached_input_tokens ∧
    (collapse_entries
        [⟨1, 2, 3, some "claude-haiku-4-5-a", none⟩,
         ⟨10, 20, 30, some "claude-haiku-4-5-b", none⟩]).cache_read_input_tokens
      = (collapse_entries
        [⟨10, 20, 30, some "claude-haiku-4-5-b", none⟩,
         ⟨1, 2, 3, some "claude-haiku-4-5-a", none⟩]).cache_read_input_tokens ∧
    (collapse_entries
        [⟨1, 2, 3, some "claude-haiku-4-5-a", none⟩,
         ⟨10, 20, 30, some "claude-haiku-4-5-b", none⟩]).output_tokens
      = (collapse_entries
        [⟨10, 20, 30, some "claude-haiku-4-5-b", none⟩,
         ⟨1, 2, 3, some "claude-haiku-4-5-a", none⟩]).output_tokens :=
  c4_token_counters_order_independent.1 _ _
    (List.Perm.swap (⟨10, 20, 30, some "claude-haiku-4-5-b", none⟩ : UnifiedUsageEntry)
      (⟨1, 2, 3, some "claude-haiku-4-5-a", none⟩ : UnifiedUsageEntry) [])

/-- C5: pricing resolution scans the table in declaration order and returns
the first rule whose `base_model_name` is a string prefix of the reported
model; the entry's `context_window` never influences which rule is selected;
and with a table `[("a", …), ("ab", …)]` and reported model `"abc"` the rule
for `"a"` wins (first match, not longest match). -/
theorem c5_first_prefix_match_wins :
    (∀ (table : List PricingTable) (e : UnifiedUsageEntry) (cw : Option String),
      find_price_in table { e with context_window := cw } = find_price_in table e) ∧
    (∀ (e : UnifiedUsageEntry) (m : String), e.model = some m →
      find_price_in PRICING e
        = PRICING.find? fun r => starts_with m r.base_model_name) ∧
    find_price_in [⟨"a", "w1", 1, 2⟩, ⟨"ab", "w2", 3, 4⟩]
        ⟨0, 0, 0, some "abc", none⟩
      = some ⟨"a", "w1", 1, 2⟩ := by
  refine ⟨fun table e cw => rfl, ?_, by decide⟩
  intro e m h
  simp [find_price_in, h]

/-- C5 witness: a dated sonnet model resolves through the first-prefix scan
(and hits the `0-200k` sonnet row, the first with that prefix). -/
theorem c5_first_prefix_match_wins_witness :
    find_price_in PRICING ⟨0, 0, 0, some "claude-sonnet-4-5-20251101", some "200k-1M"⟩
      = PRICING.find? (fun r => starts_with "claude-sonnet-4-5-20251101" r.base_model_name) ∧
    find_price_in PRICING ⟨0, 0, 0, some "claude-sonnet-4-5-20251101", some "200k-1M"⟩
      = some ⟨"claude-sonnet-4-5", "0-200k", 3, 15⟩ :=
  ⟨c5_first_prefix_match_wins.2.1
      ⟨0, 0, 0, some "claude-sonnet-4-5-20251101", some "200k-1M"⟩
      "claude-sonnet-4-5-20251101" rfl,
   by decide⟩

/-- `try_into_base_model_pairs` fails fast: the first unpriceable entry turns
the whole result into its `PricingNotFound` error. -/
theorem try_into_base_model_pairs_fail_fast
    (pre : List UnifiedUsageEntry) (e : UnifiedUsageEntry)
    (post : List UnifiedUsageEntry)
    (hpre : ∀ x ∈ pre, find_price_in PRICING x ≠ none)
    (hnone : find_price_in PRICING e = none) :
    try_into_base_model_pairs (pre ++ e :: post)
      = .error (.PricingNotFound (e.model.getD "Unknown")
          (e.context_window.getD "Unknown")) := by
  induction pre with
  | nil =>
    simp [try_into_base_model_pairs, find_price, hnone]
  | cons x rest ih =>
    have hx : find_price_in PRICING x ≠ none := hpre x (by simp)
    obtain ⟨p, hp⟩ : ∃ p, find_price_in PRICING x = some p := by
      cases hfp : find_price_in PRICING x
      · exact absurd hfp hx
      · exact ⟨_, rfl⟩
    have hrest := ih fun y hy => hpre y (by simp [hy])
    simp [try_into_base_model_pairs, find_price, hp, hrest]

/-- C6: aggregation is fail-fast and all-or-nothing.  An absent model matches
no rule; when some entry of the flattened sequence has no matching rule, the
keying step returns exactly the `PricingNotFound` error carrying the raw
reported model and context-window label (`"Unknown"` placeholders when
absent), and `make_primitives` on such a bucket returns that error rather
than any partial report. -/
theorem c6_aggregation_fail_fast :
    (∀ (table : List PricingTable) (e : UnifiedUsageEntry), e.model = none →
      find_price_in table e = none) ∧
    (∀ (pre : List UnifiedUsageEntry) (e : UnifiedUsageEntry)
        (post : List UnifiedUsageEntry),
      (∀ x ∈ pre, find_price_in PRICING x ≠ none) →
      find_price_in PRICING e = none →
      try_into_base_model_pairs (pre ++ e :: post)
        = .error (.PricingNotFound (e.model.getD "Unknown")
            (e.context_window.getD "Unknown"))) ∧
    ∀ (b : UnifiedBucketByTime) (pre : List UnifiedUsageEntry)
        (e : UnifiedUsageEntry) (post : List UnifiedUsageEntry),
      b.results = pre ++ e :: post →
      (∀ x ∈ pre, find_price_in PRICING x ≠ none) →
      find_price_in PRICING e = none →
      make_primitives [b]
        = .error (.PricingNotFound (e.model.getD "Unknown")
            (e.context_window.getD "Unknown")) := by
  refine ⟨?_, try_into_base_model_pairs_fail_fast, ?_⟩
  · intro table e h
    simp [find_price_in, h, List.find?_eq_none]
  · intro b pre e post hres hpre hnone
    have h1 : collapse_by_providers [b] = [(b.provider, b.results)] := by
      simp [collapse_by_providers]
    have h2 := try_into_base_model_pairs_fail_fast pre e post hpre hnone
    rw [← hres] at h2
    simp [make_primitives, h1, make_primitives.go, h2]

/-- C6 witness: a bucket holding one priceable entry followed by a
`"gpt-unknown"` entry aggregates to the `PricingNotFound` error naming
`"gpt-unknown"`. -/
theorem c6_aggregation_fail_fast_witness :
    try_into_base_model_pairs
        [⟨1, 0, 0, some "claude-haiku-4-5", none⟩,
         ⟨2, 0, 0, some "gpt-unknown", none⟩,
         ⟨3, 0, 0, some "claude-opus-4-5", none⟩]
      = .error (.PricingNotFound "gpt-unknown" "Unknown") ∧
    make_primitives
        [⟨0, 86400,
          [⟨1, 0, 0, some "claude-haiku-4-5", none⟩,
           ⟨2, 0, 0, some "gpt-unknown", none⟩,
           ⟨3, 0, 0, some "claude-opus-4-5", none⟩], .Anthropic⟩]
      = .error (.PricingNotFound "gpt-unknown" "Unknown") :=
  ⟨c6_aggregation_fail_fast.2.1
      [⟨1, 0, 0, some "claude-haiku-4-5", none⟩]
      ⟨2, 0, 0, some "gpt-unknown", none⟩
      [⟨3, 0, 0, some "claude-opus-4-5", none⟩]
      (by decide) (by decide),
   c6_aggregation_fail_fast.2.2
      ⟨0, 86400,
        [⟨1, 0, 0, some "claude-haiku-4-5", none⟩,
         ⟨2, 0, 0, some "gpt-unknown", none⟩,
         ⟨3, 0, 0, some "claude-opus-4-5", none⟩], .Anthropic⟩
      [⟨1, 0, 0, some "claude-haiku-4-5", none⟩]
      ⟨2, 0, 0, some "gpt-unknown", none⟩
      [⟨3, 0, 0, some "claude-opus-4-5", none⟩]
      rfl (by decide) (by decide)⟩

/-- C7: cost mode computes, per (provider, canonical model) group,
`cost = ((uncached + cache_read) / 1e6) * input_multiplier +
(output / 1e6) * output_multiplier` from that model's rule, and the two
haiku entries `{uncached: 1_000_000}` and `{output: 1_000_000}` aggregate in
ungrouped cost mode to 6 dollars (`"$6.00"` once formatted). -/
theorem c7_cost_mode :
    (∀ (name : String) (e : UnifiedUsageEntryCollapsed) (p : PricingTable),
      price_for name = some p →
      cost_of name e = some
        (((e.uncached_input_tokens : ℚ) + (e.cache_read_input_tokens : ℚ)) / 1000000
            * p.input_multiplier
          + (e.output_tokens : ℚ) / 1000000 * p.output_multiplier)) ∧
    make_primitives
        [⟨0, 86400,
          [⟨1000000, 0, 0, some "claude-haiku-4-5", none⟩,
           ⟨0, 0, 1000000, some "claude-haiku-4-5", none⟩], .Anthropic⟩]
      = .ok [(.Anthropic,
          [("claude-haiku-4-5", ⟨1000000, 0, 1000000, "claude-haiku-4-5"⟩)])] ∧
    collapse_cost
        [(.Anthropic,
          [("claude-haiku-4-5", ⟨1000000, 0, 1000000, "claude-haiku-4-5"⟩)])]
      = some [("claude-haiku-4-5", 6)] ∧
    fold_values [("claude-haiku-4-5", (6 : ℚ))] = 6 ∧
    format 6 false = "$6.00" := by
  refine ⟨?_, by decide, ?_, by simp [fold_values], ?_⟩
  · intro name e p h
    simp only [cost_of, h, Option.map_some', Option.some_inj, calculate_cost]
    push_cast
    ring
  · simp [collapse_cost, collapse_cost.priced, cost_of, price_for, PRICING,
      calculate_cost, alUpdate]
    norm_num
  · norm_num [format, twoDecimalString, round_eq, pad2]
    rfl

/-- C7 witness: the formula applied to the collapsed haiku group gives the
6-dollar total. -/
theorem c7_cost_mode_witness :
    cost_of "claude-haiku-4-5" ⟨1000000, 0, 1000000, "claude-haiku-4-5"⟩
      = some ((((1000000 : Nat) : ℚ) + ((0 : Nat) : ℚ)) / 1000000 * 1
          + ((1000000 : Nat) : ℚ) / 1000000 * 5) :=
  c7_cost_mode.1 "claude-haiku-4-5" ⟨1000000, 0, 1000000, "claude-haiku-4-5"⟩
    ⟨"claude-haiku-4-5", "0-200k", 1, 5⟩ (by decide)

/-- C8: the cache signature ignores the purely cosmetic and cache-control
parameters.  `no_animate` and `ttl_minutes` are `#[serde(skip)]`, so any two
invocations whose content-affecting parameters (command with metric and
grouping, unformatted flag, since window, API key, provider selection) are
equal serialize identically and hash to the same signature.  (Flag order on
the command line is absorbed by argument parsing into the same `Cli` value,
which is what this statement quantifies over.) -/
theorem c8_signature_ignores_cosmetic_params :
    ∀ (c1 c2 : Cli),
      c1.command = c2.command →
      c1.unformatted = c2.unformatted →
      c1.since = c2.since →
      c1.anthropic_admin_api_key = c2.anthropic_admin_api_key →
      c1.provider = c2.provider →
      create_args_signature c1 = create_args_signature c2 := by
  intro c1 c2 h1 h2 h3 h4 h5
  simp only [create_args_signature, serializeCli, h1, h2, h3, h4, h5]

/-- C8 witness: flipping `no_animate` and changing `ttl_minutes` leaves the
signature unchanged. -/
theorem c8_signature_ignores_cosmetic_params_witness :
    create_args_signature
        ⟨.Sum ⟨.Cost, none⟩, false, false, 1, "0d", none, [.Anthropic]⟩
      = create_args_signature
        ⟨.Sum ⟨.Cost, none⟩, true, false, 99, "0d", none, [.Anthropic]⟩ :=
  c8_signature_ignores_cosmetic_params
    ⟨.Sum ⟨.Cost, none⟩, false, false, 1, "0d", none, [.Anthropic]⟩
    ⟨.Sum ⟨.Cost, none⟩, true, false, 99, "0d", none, [.Anthropic]⟩
    rfl rfl rfl rfl rfl

/-- The cost rendered under `with_symbol = Some(!no_format)` (what
`format_csv` puts in the display key) equals the cost rendered under
`with_symbol = Some(true)`: when `no_format` is set the symbol flag is
irrelevant, and otherwise `!no_format = true`. -/
theorem render_money_bang_flag (x : ℚ) (nf : Bool) :
    render_money x nf (some !nf) = render_money x nf (some true) := by
  cases nf <;> rfl

set_option maxRecDepth 4096 in
/-- C9: rendering a `Map` whose values are all `Money` yields headerless
delimiter-separated rows whose display key is `"<key> (<cost with symbol>)"`
while the adjacent value column holds the same cost without a currency
symbol; and `render_money` itself yields the raw value when `no_format` is
set, and otherwise exactly two fractional digits with a `$` prefix unless the
symbol is explicitly suppressed. -/
theorem c9_map_money_rendering :
    (∀ (pairs : List (String × ℚ)) (no_format : Bool),
      format_csv (pairs.map fun kv => (kv.1, UsageReport.Money kv.2)) no_format
        = some ((pairs.map fun kv =>
            csvRow (kv.1 ++ " (" ++ render_money kv.2 no_format (some true) ++ ")")
              (render_money kv.2 no_format (some false))).foldr
            (fun row acc => row ++ acc) "")) ∧
    (∀ (x : ℚ) (ws : Option Bool), render_money x true ws = ratToString x) ∧
    ∀ (x : ℚ),
      render_money x false (some true) = "$" ++ twoDecimalString x ∧
      render_money x false none = "$" ++ twoDecimalString x ∧
      render_money x false (some false) = twoDecimalString x := by
  refine ⟨?_, fun x ws => rfl, fun x => ⟨rfl, rfl, rfl⟩⟩
  intro pairs no_format
  induction pairs with
  | nil => rfl
  | cons kv rest ih =>
    simp only [List.map_cons, List.foldr_cons, format_csv, ih,
      render_money_bang_flag]

end Meter
